import Mathlib

/-!
Shallow embedding of the rappa-mvp document pipeline: the PDF classifier
(`app/services/pdf_classifier.py`), the OCR adapter
(`app/services/simple_ocr_service.py`), the Gemini extraction adapter
(`app/services/gemini_service.py`), the fraud/integrity analyzer
(`app/services/fraud_detection.py`) and the worker task
(`app/workers/tasks.py`).  Python floats are modelled as rationals,
fallible code as `Except`, database/file-system/network effects as
explicit inputs.
-/

namespace Rappa

/-- Values that can sit in a Python field dict under `confidence` /
`extraction_confidence`: either a string or a numeric value. -/
inductive ConfValue where
  | str (v : String)
  | num (v : ℚ)
  deriving DecidableEq

/-- Python truthiness for a `ConfValue`: nonempty string / nonzero number. -/
def pyTruthy : ConfValue → Bool
  | .str v => v ≠ ""
  | .num q => q ≠ 0

/-- Python `a or b` on two optional values, as used in
`field.get('confidence') or field.get('extraction_confidence')`
(a missing key or `None` is falsy). -/
def pyOr (a b : Option ConfValue) : Option ConfValue :=
  match a with
  | some v => if pyTruthy v then some v else b
  | none => b

/-- Numeric value of a digit list, most significant first. -/
def natOfDigits (cs : List Char) : ℕ :=
  cs.foldl (fun a c => 10 * a + (c.toNat - '0'.toNat)) 0

/-- Python `float(s)` on a string: optional surrounding whitespace, optional
sign, a decimal mantissa with at least one digit, optional exponent.
Returns `none` where Python raises `ValueError`. -/
def pythonFloat? (s : String) : Option ℚ :=
  let cs := s.trim.toList
  let signed : ℚ × List Char :=
    match cs with
    | '+' :: r => (1, r)
    | '-' :: r => (-1, r)
    | r => (1, r)
  let sign := signed.1
  let cs1 := signed.2
  let ip := cs1.takeWhile Char.isDigit
  let r1 := cs1.dropWhile Char.isDigit
  let fracked : List Char × List Char :=
    match r1 with
    | '.' :: r => (r.takeWhile Char.isDigit, r.dropWhile Char.isDigit)
    | _ => ([], r1)
  let fp := fracked.1
  let r2 := fracked.2
  if ip = [] ∧ fp = [] then none
  else
    let mant : ℚ := sign * ((natOfDigits (ip ++ fp) : ℚ) / 10 ^ fp.length)
    match r2 with
    | [] => some mant
    | e :: r3 =>
      if e = 'e' ∨ e = 'E' then
        let esigned : ℤ × List Char :=
          match r3 with
          | '+' :: r => (1, r)
          | '-' :: r => (-1, r)
          | r => (1, r)
        let ed := esigned.2.takeWhile Char.isDigit
        let r5 := esigned.2.dropWhile Char.isDigit
        if ed = [] ∨ r5 ≠ [] then none
        else some (mant * 10 ^ (esigned.1 * (natOfDigits ed : ℤ)))
      else none

/-- Python `sub in s` substring test (both already strings). -/
def pyContains (s sub : String) : Bool :=
  decide (sub.toList <:+: s.toList)

/-- FraudDetectionService._extract_amount: strip currency symbols and commas,
then `re.search(r'[\d,]+\.?\d*', ...)` and `float` of the match.  After the
`re.sub` there are no commas left, so the match is the first maximal digit
run, an optional dot, and a further digit run. -/
def extractAmount (text : String) : Option ℚ :=
  if text = "" then none
  else
    let cleaned := text.toList.filter (fun c => ¬ (c ∈ [',', '$', '₹', '€', '£']))
    let ds := cleaned.dropWhile (fun c => ¬ c.isDigit)
    match ds with
    | [] => none
    | _ =>
      let ip := ds.takeWhile Char.isDigit
      let r1 := ds.dropWhile Char.isDigit
      let fp :=
        match r1 with
        | '.' :: r => r.takeWhile Char.isDigit
        | _ => []
      some ((natOfDigits (ip ++ fp) : ℚ) / 10 ^ fp.length)

/-! ## Fraud detection service (`app/services/fraud_detection.py`) -/

/-- One entry of the `extracted_fields` list handed to the fraud analyses
(built in `tasks.py` from the persisted `ExtractedField` rows). -/
structure Field where
  field_name : String
  current_value : String
  confidence : Option ConfValue := none
  extraction_confidence : Option ConfValue := none
  deriving DecidableEq

/-- A persisted job row, as far as `check_duplicate`'s query sees it. -/
structure JobRow where
  id : ℕ
  userId : ℕ
  fileHash : Option String
  status : String
  deriving DecidableEq

/-- FraudDetectionService.check_duplicate: first prior job with the same
owner, the same file hash and status `completed` (the query against the
`jobs` table, modelled as a list scan). -/
def checkDuplicate (jobs : List JobRow) (fileHash : String) (userId : ℕ) :
    Option JobRow :=
  jobs.find? fun j =>
    decide (j.userId = userId ∧ j.fileHash = some fileHash ∧ j.status = "completed")

/-- Inputs of `analyze_image_metadata`, read from the file on disk: whether
the path ends in `.pdf`, whether opening/reading raised, the decoded EXIF
tag map, and the PDF metadata map. -/
structure FileMeta where
  isPdf : Bool
  openFails : Bool
  exif : List (String × String)
  pdfMeta : List (String × String)
  deriving DecidableEq

/-- Result of `analyze_image_metadata`. -/
structure MetaAnalysis where
  manipulation_indicators : List String
  metadata_available : Bool
  risk_level : String
  deriving DecidableEq

/-- FraudDetectionService.analyze_image_metadata.  For a PDF the metadata is
read via `_analyze_pdf_metadata` (which swallows its own errors) and the
indicator checks are only in the image branch, so a PDF yields no
indicators.  For an image: an editing-software EXIF `Software` tag and a
missing `DateTime` tag are indicators; any exception yields the single
indicator `Unable to extract metadata`. -/
def analyzeImageMetadata (m : FileMeta) : MetaAnalysis :=
  if m.isPdf then
    { manipulation_indicators := []
      metadata_available := m.pdfMeta ≠ []
      risk_level := "low" }
  else if m.openFails then
    { manipulation_indicators := ["Unable to extract metadata"]
      metadata_available := false
      risk_level := "medium" }
  else
    let softwareInd :=
      match m.exif.lookup "Software" with
      | some sw =>
        if ["photoshop", "gimp", "paint"].any (fun e => pyContains sw.toLower e) then
          ["Document edited with image editing software"]
        else []
      | none => []
    let dateInd :=
      if (m.exif.lookup "DateTime").isSome then [] else ["Missing creation timestamp"]
    let ind := softwareInd ++ dateInd
    { manipulation_indicators := ind
      metadata_available := m.exif ≠ []
      risk_level :=
        if 2 ≤ ind.length then "high" else if ind ≠ [] then "medium" else "low" }

/-- One consistency issue (the display-only `details` f-string is omitted). -/
structure Issue where
  issue : String
  severity : String
  deriving DecidableEq

/-- Result of `check_text_consistency`. -/
structure ConsistencyCheck where
  consistency_issues : List Issue
  total_issues : ℕ
  risk_level : String
  deriving DecidableEq

/-- Python dict comprehension over the field list: keys in first-occurrence
order, each key mapped to the value of its last occurrence. -/
def pyDict (fields : List Field) : List (String × String) :=
  fields.foldl
    (fun acc f =>
      if acc.any (fun kv => kv.1 = f.field_name) then
        acc.map (fun kv => if kv.1 = f.field_name then (kv.1, f.current_value) else kv)
      else acc ++ [(f.field_name, f.current_value)])
    []

/-- `field_dict.get(key, '')`. -/
def fieldValue (fields : List Field) (key : String) : String :=
  ((pyDict fields).lookup key).getD ""

/-- Python truthiness of an optional float. -/
def truthyAmount : Option ℚ → Bool
  | none => false
  | some q => q ≠ 0

/-- Does the value match the suspicious pattern `r"\$9\x7b3,\x7d"`:
a dollar sign followed by at least three nines somewhere in the string. -/
def dollarNines : List Char → Bool
  | '$' :: '9' :: '9' :: '9' :: _ => true
  | _ :: rest => dollarNines rest
  | [] => false

/-- Issues produced by the suspicious-amount pattern screen for one
dict entry: the `\$9\x7b3,\x7d` pattern and the `\.00$` pattern, each
appending one medium-severity issue when it matches a field whose name
contains `amount` or `total`. -/
def suspiciousIssues (kv : String × String) : List Issue :=
  if pyContains kv.1.toLower "amount" ∨ pyContains kv.1.toLower "total" then
    (if dollarNines kv.2.toList then [⟨"Suspicious amount pattern", "medium"⟩] else []) ++
    (if kv.2.endsWith ".00" then [⟨"Suspicious amount pattern", "medium"⟩] else [])
  else []

/-- FraudDetectionService.check_text_consistency.  Dates are opaque ordered
values: `parseDate` stands for `_parse_date` and `now` for
`datetime.now()`, both passed explicitly. -/
def checkTextConsistency (parseDate : String → Option ℤ) (now : ℤ)
    (fields : List Field) : ConsistencyCheck :=
  let total := extractAmount (fieldValue fields "invoice_total")
  let subtotal := extractAmount (fieldValue fields "invoice_subtotal")
  let tax := extractAmount (fieldValue fields "invoice_tax")
  let amountIssues :=
    if truthyAmount total ∧ truthyAmount subtotal ∧ truthyAmount tax then
      if |subtotal.getD 0 + tax.getD 0 - total.getD 0| > 1 / 100 then
        [⟨"Total amount mismatch", "high"⟩]
      else []
    else []
  let invoiceDate := fieldValue fields "invoice_date"
  let dueDate := fieldValue fields "invoice_due_date"
  let futureIssues :=
    if invoiceDate ≠ "" then
      match parseDate invoiceDate with
      | some d => if d > now then [⟨"Future invoice date", "medium"⟩] else []
      | none => []
    else []
  let sequenceIssues :=
    if invoiceDate ≠ "" ∧ dueDate ≠ "" then
      match parseDate invoiceDate, parseDate dueDate with
      | some i, some d => if d < i then [⟨"Due date before invoice date", "high"⟩] else []
      | _, _ => []
    else []
  let patternIssues := ((pyDict fields).map suspiciousIssues).flatten
  let issues := amountIssues ++ futureIssues ++ sequenceIssues ++ patternIssues
  { consistency_issues := issues
    total_issues := issues.length
    risk_level :=
      if issues.any (fun i => i.severity = "high") then "high"
      else if issues ≠ [] then "medium" else "low" }

/-- One flagged low-confidence field. -/
structure LowConfidenceField where
  field : String
  confidence : ℚ
  value : String
  reason : String
  deriving DecidableEq

/-- Result of `analyze_confidence_scores`.  The raw (unrounded) average is
kept; the returned dict additionally rounds it to three decimals for
display only. -/
structure ConfidenceAnalysis where
  average_confidence : ℚ
  low_confidence_fields : List LowConfidenceField
  total_low_confidence : ℕ
  risk_level : String
  deriving DecidableEq

/-- The textual confidence-label map of `analyze_confidence_scores`. -/
def confLabelMap (s : String) : Option ℚ :=
  if s = "high" then some (9 / 10)
  else if s = "medium" then some (7 / 10)
  else if s = "low" then some (1 / 2)
  else if s = "very high" then some (95 / 100)
  else if s = "very low" then some (3 / 10)
  else none

/-- The effective confidence of a field:
`field.get('confidence') or field.get('extraction_confidence')` followed by
the `if confidence:` truthiness guard. -/
def effectiveConf (f : Field) : Option ConfValue :=
  match pyOr f.confidence f.extraction_confidence with
  | some v => if pyTruthy v then some v else none
  | none => none

/-- The fixed critical-field list of `analyze_confidence_scores`. -/
def criticalFields : List String :=
  ["invoice_total", "invoice_number", "invoice_date", "customer_name", "vendor_name"]

/-- First loop of `analyze_confidence_scores`: parse each field's
confidence (label map first, then `float`, skipping unparseable strings)
and flag critical fields below 0.70 and any field below 0.50. -/
def lowConfidenceFields (fields : List Field) : List LowConfidenceField :=
  fields.foldl
    (fun acc f =>
      match effectiveConf f with
      | none => acc
      | some v =>
        let cf? :=
          match v with
          | .str s =>
            match confLabelMap s.toLower.trim with
            | some q => some q
            | none => pythonFloat? s
          | .num q => some q
        match cf? with
        | none => acc
        | some cf =>
          if f.field_name ∈ criticalFields ∧ cf < 7 / 10 then
            acc ++ [⟨f.field_name, cf, f.current_value, "Critical field with low confidence"⟩]
          else if cf < 1 / 2 then
            acc ++ [⟨f.field_name, cf, f.current_value, "Extremely low extraction confidence"⟩]
          else acc)
    []

/-- Second loop of `analyze_confidence_scores`: collect
`float(conf) if isinstance(conf, str) else conf` for every field with a
truthy confidence.  Unlike the first loop there is no `try` here: a string
that `float` cannot parse raises `ValueError`. -/
def confidenceValues (fields : List Field) : Except String (List ℚ) :=
  fields.foldlM
    (fun acc f =>
      match effectiveConf f with
      | none => pure acc
      | some (.str s) =>
        match pythonFloat? s with
        | some q => pure (acc ++ [q])
        | none => Except.error ("could not convert string to float: " ++ s)
      | some (.num q) => pure (acc ++ [q]))
    []

/-- FraudDetectionService.analyze_confidence_scores.  Fallible: the
average-confidence loop applies `float` to textual labels and raises. -/
def analyzeConfidenceScores (fields : List Field) : Except String ConfidenceAnalysis := do
  let lowConf := lowConfidenceFields fields
  let confs ← confidenceValues fields
  let avg : ℚ := if confs = [] then 0 else confs.sum / confs.length
  return { average_confidence := avg
           low_confidence_fields := lowConf
           total_low_confidence := lowConf.length
           risk_level :=
             if avg < 3 / 5 ∨ 3 ≤ lowConf.length then "high"
             else if avg < 3 / 4 ∨ lowConf ≠ [] then "medium" else "low" }

/-- The four sub-scores assembled in `perform_full_analysis`. -/
structure SubScores where
  duplicate : ℕ
  metadata : ℕ
  consistency : ℕ
  confidence : ℕ
  deriving DecidableEq

/-- The duplicate sub-score of `perform_full_analysis`:
`3 if duplicate_check else 0`. -/
def duplicateScore (jobs : List JobRow) (fileHash : String) (userId : ℕ) : ℕ :=
  if (checkDuplicate jobs fileHash userId).isSome then 3 else 0

/-- The metadata sub-score: 2 for `high`, 1 for `medium`, else 0. -/
def metadataScore (m : MetaAnalysis) : ℕ :=
  if m.risk_level = "high" then 2 else if m.risk_level = "medium" then 1 else 0

/-- The consistency sub-score: 3 for `high`, 1 for `medium`, else 0. -/
def consistencyScore (c : ConsistencyCheck) : ℕ :=
  if c.risk_level = "high" then 3 else if c.risk_level = "medium" then 1 else 0

/-- The confidence sub-score: 2 for `high`, 1 for `medium`, else 0. -/
def confidenceScore (c : ConfidenceAnalysis) : ℕ :=
  if c.risk_level = "high" then 2 else if c.risk_level = "medium" then 1 else 0

/-- The report returned by `perform_full_analysis` (timestamp and the
nested detailed-analysis echo omitted). -/
structure FraudReport where
  overall_risk_level : String
  risk_score : ℕ
  max_risk_score : ℕ
  recommendation : String
  flags : List String
  total_flags : ℕ
  sub_scores : SubScores
  deriving DecidableEq

/-- All inputs of `perform_full_analysis`: the job history visible to the
duplicate query, the file hash and owner, the on-disk metadata of the file,
the extracted-field list, and the date oracle used by the consistency
check. -/
structure AnalysisInput where
  jobs : List JobRow
  fileHash : String
  userId : ℕ
  fileMeta : FileMeta
  fields : List Field
  parseDate : String → Option ℤ
  now : ℤ

/-- FraudDetectionService.perform_full_analysis: run the four
sub-analyses, sum the sub-scores, derive the overall level (high at 6,
medium at 3) and aggregate the flags in duplicate, metadata, consistency,
confidence order. -/
def performFullAnalysis (inp : AnalysisInput) : Except String FraudReport := do
  let dup := checkDuplicate inp.jobs inp.fileHash inp.userId
  let meta := analyzeImageMetadata inp.fileMeta
  let cons := checkTextConsistency inp.parseDate inp.now inp.fields
  let conf ← analyzeConfidenceScores inp.fields
  let scores : SubScores :=
    { duplicate := duplicateScore inp.jobs inp.fileHash inp.userId
      metadata := metadataScore meta
      consistency := consistencyScore cons
      confidence := confidenceScore conf }
  let total := scores.duplicate + scores.metadata + scores.consistency + scores.confidence
  let overall :=
    if 6 ≤ total then "high" else if 3 ≤ total then "medium" else "low"
  let recommendation :=
    if 6 ≤ total then "Manual review required - Multiple fraud indicators detected"
    else if 3 ≤ total then "Review recommended - Some fraud indicators present"
    else "Document appears legitimate"
  let flags :=
    (if dup.isSome then ["Duplicate document detected"] else []) ++
    meta.manipulation_indicators ++
    cons.consistency_issues.map (fun i => i.issue) ++
    (if conf.low_confidence_fields ≠ [] then
      [toString conf.low_confidence_fields.length ++ " fields with low confidence"]
    else [])
  return { overall_risk_level := overall
           risk_score := total
           max_risk_score := 9
           recommendation := recommendation
           flags := flags
           total_flags := flags.length
           sub_scores := scores }

/-! ## PDF classifier (`app/services/pdf_classifier.py`) -/

/-- The four strategy classes. -/
inductive PDFType where
  | TEXT_ONLY
  | IMAGE_HEAVY
  | IMAGE_LIGHT
  | MIXED
  deriving DecidableEq

/-- Classifier configuration (constructor defaults of `PDFClassifier`;
`get_pdf_classifier` passes `image_threshold=2`). -/
structure ClassifierCfg where
  imageThreshold : ℕ := 2
  minImageWidth : ℕ := 200
  minImageHeight : ℕ := 200
  minImageArea : ℕ := 40000
  deriving DecidableEq

/-- The inline content-image filter of `classify_pdf` (lines 110-112):
width, height and area minima. -/
def isContentImage (width height minW minH minArea : ℕ) : Bool :=
  decide (width ≥ minW) && decide (height ≥ minH) && decide (width * height ≥ minArea)

/-- One page of a PDF as the classifier reads it: its extractable text and
its embedded images.  Each image is the outcome of
`extract_image` / `Image.open` / `.size`: `some (w, h)` on success, `none`
when that raises (the `except` branch logs and skips it). -/
structure PdfPage where
  text : String
  images : List (Option (ℕ × ℕ))
  deriving DecidableEq

/-- A PDF document as far as `classify_pdf` inspects it. -/
structure PdfDoc where
  pages : List PdfPage
  deriving DecidableEq

/-- Keep an image if it decoded and passes the content filter. -/
def keepImage (cfg : ClassifierCfg) : Option (ℕ × ℕ) → Option (ℕ × ℕ)
  | none => none
  | some (w, h) =>
    if isContentImage w h cfg.minImageWidth cfg.minImageHeight cfg.minImageArea then
      some (w, h)
    else none

/-- The content images collected by `classify_pdf`, page by page. -/
def contentImages (cfg : ClassifierCfg) (doc : PdfDoc) : List (ℕ × ℕ) :=
  (doc.pages.map (fun p => p.images.filterMap (keepImage cfg))).flatten

/-- The decision tree of `classify_pdf` (lines 135-169), in source order. -/
def classifyType (threshold imageCount : ℕ) (hasText : Bool)
    (textLength pageCount : ℕ) : PDFType :=
  if imageCount = 0 ∧ hasText then .TEXT_ONLY
  else if imageCount > threshold ∧ ¬hasText then .IMAGE_HEAVY
  else if imageCount ≤ threshold ∧ ¬hasText ∧ pageCount ≤ 5 then .IMAGE_LIGHT
  else if imageCount ≤ threshold ∧ ¬hasText ∧ pageCount > 5 then .IMAGE_HEAVY
  else if hasText ∧ textLength > 500 then .TEXT_ONLY
  else if imageCount ≤ threshold ∧ pageCount ≤ 5 then .IMAGE_LIGHT
  else if imageCount ≤ threshold ∧ pageCount > 5 then .IMAGE_HEAVY
  else .MIXED

/-- The classification record. -/
structure PDFClassification where
  pdf_type : PDFType
  page_count : ℕ
  image_count : ℕ
  has_text : Bool
  text_length : ℕ
  images : List (ℕ × ℕ)
  text_content : String
  deriving DecidableEq

/-- PDFClassifier.classify_pdf: concatenate all page text, measure the
trimmed length, collect the filtered content images, and classify. -/
def classifyPdf (cfg : ClassifierCfg) (doc : PdfDoc) : PDFClassification :=
  let text := String.join (doc.pages.map (fun p => p.text))
  let hasText := decide (text.trim.length > 50)
  let textLength := text.trim.length
  let imgs := contentImages cfg doc
  { pdf_type := classifyType cfg.imageThreshold imgs.length hasText textLength doc.pages.length
    page_count := doc.pages.length
    image_count := imgs.length
    has_text := hasText
    text_length := textLength
    images := imgs
    text_content := text }

/-- The same document with the images whose decode raised removed, page by
page (what the classifier would see if the failing images were absent). -/
def dropFailedImages (doc : PdfDoc) : PdfDoc :=
  ⟨doc.pages.map (fun p => ⟨p.text, p.images.filter Option.isSome⟩)⟩

/-! ## OCR adapter (`app/services/simple_ocr_service.py`) -/

/-- The OCR engine's response for one image: the text from
`image_to_string` and the `conf` column of `image_to_data` (the raw TSV
cells; the no-text sentinel is the cell `-1`). -/
structure OcrImage where
  text : String
  conf : List String
  deriving DecidableEq

/-- Python `float(conf)` inside the confidence list comprehension,
raising on a non-numeric cell. -/
def tokenFloat (c : String) : Except String ℚ :=
  match pythonFloat? c with
  | some q => Except.ok q
  | none => Except.error ("could not convert string to float: " ++ c)

/-- SimpleOCRService.extract_text_from_image: drop the `-1` sentinel
cells, average the remaining confidences, scale from 0-100 to 0-1, and
return the stripped text. -/
def extractTextFromImage (img : OcrImage) : Except String (String × ℚ) := do
  let kept := img.conf.filter (fun c => c ≠ "-1")
  let confs ← kept.mapM tokenFloat
  let avg : ℚ := if confs = [] then 0 else confs.sum / confs.length
  return (img.text.trim, avg / 100)

/-- SimpleOCRService.extract_text_from_images: per-image blocks with a
page separator header, joined by blank lines in input order, and the
arithmetic mean of the per-image confidences. -/
def extractTextFromImages (imgs : List OcrImage) : Except String (String × ℚ) := do
  let results ← imgs.mapM extractTextFromImage
  let blocks := results.enum.map
    (fun p => "--- Page/Image " ++ toString (p.1 + 1) ++ " ---\n" ++ p.2.1)
  let confs := results.map (fun r => r.2)
  let avg : ℚ := if confs = [] then 0 else confs.sum / confs.length
  return (String.intercalate "\n\n" blocks, avg)

/-! ## Gemini extraction adapter (`app/services/gemini_service.py`) -/

/-- The JSON object `json.loads` produced from the service response (each
key optional, mirroring `result.get(...)`). -/
structure GeminiParsed where
  confidence : Option ℚ := none
  document_type : Option String := none
  extracted_data : List (String × String) := []
  summary : Option String := none
  deriving DecidableEq

/-- The dict returned by `extract_fields_from_text` (record defaults stand
for keys absent from the failure dict). -/
structure GeminiResult where
  success : Bool
  document_type : String := "Unknown"
  confidence : ℚ := 0
  extracted_data : List (String × String) := []
  summary : String := ""
  method : String := "gemini_text"
  ocr_confidence : Option ℚ := none
  api_confidence : ℚ := 0
  error : Option String := none
  deriving DecidableEq

/-- GeminiService.extract_fields_from_text, lines 104-143: the argument is
the outcome of `json.loads` on the (fence-stripped) service response,
`none` when parsing raised `JSONDecodeError`.  On success the combined
confidence averages OCR and API confidence when an OCR confidence is
present and is the API confidence (default 0.9) otherwise. -/
def extractFieldsFromText (parsed : Option GeminiParsed) (ocrConfidence : Option ℚ) :
    GeminiResult :=
  match parsed with
  | none =>
    { success := false
      method := "gemini_text"
      error := some "Failed to process document response" }
  | some r =>
    let api := r.confidence.getD (9 / 10)
    let overall :=
      match ocrConfidence with
      | some o => (o + api) / 2
      | none => api
    { success := true
      document_type := r.document_type.getD "Unknown"
      confidence := overall
      extracted_data := r.extracted_data
      summary := r.summary.getD ""
      method := "gemini_text"
      ocr_confidence := ocrConfidence
      api_confidence := api }

/-! ## Worker task (`app/workers/tasks.py`) -/

/-- Job lifecycle states (`app/models/job.py`). -/
inductive JobStatus where
  | queued
  | processing
  | completed
  | failed
  deriving DecidableEq

/-- The mutable job row as the worker sees it. -/
structure JobState where
  status : JobStatus
  errorMessage : Option String := none
  fileHash : Option String := none
  fraudAnalysis : Option FraudReport := none
  completedAt : Bool := false

/-- Environment of one `process_document` run: outcomes of the external
steps (S3 download, classification/OCR/rendering, the `json.loads` of the
Gemini response) plus the inputs the fraud analysis reads. -/
structure TaskEnv where
  download : Except String Unit
  fileHash : String
  classifier : Except String Unit
  geminiParsed : Option GeminiParsed
  ocrConfidence : Option ℚ
  jobs : List JobRow
  fileMeta : FileMeta
  parseDate : String → Option ℤ
  now : ℤ

/-- save_extracted_fields followed by the re-query in `process_document`:
the metadata rows (skipping falsy values) with confidence `"0.90"`, then
one row per extracted pair whose value is nonempty and not the
`"Not found"` sentinel, with confidence `"0.70"`.  The stringified float
in the `_confidence` row is abstracted by `toString` (its text is never
inspected downstream). -/
def savedFields (r : GeminiResult) : List Field :=
  (([("_document_type", r.document_type),
     ("_confidence", toString r.confidence),
     ("_summary", r.summary),
     ("_method", r.method)].filter (fun kv => kv.2 ≠ "")).map
    (fun kv => { field_name := kv.1, current_value := kv.2,
                 confidence := some (.str "0.90") })) ++
  ((r.extracted_data.filter (fun kv => kv.2 ≠ "" ∧ kv.2 ≠ "Not found")).map
    (fun kv => { field_name := kv.1, current_value := kv.2,
                 confidence := some (.str "0.70") }))

/-- Mark the job failed with an error message and a completion timestamp
(the `except` branch of `process_document`). -/
def failJob (st : JobState) (msg : String) : JobState :=
  { st with status := .failed, errorMessage := some msg, completedAt := true }

/-- The `process_document` Celery task for an existing job: set
PROCESSING, download, hash, process the document, check the result's
success flag, persist fields, run the fraud analysis, then COMPLETED; any
exception on the way fails the job with its message recorded. -/
def runProcessDocument (userId : ℕ) (env : TaskEnv) (st0 : JobState) : JobState :=
  let st1 : JobState := { st0 with status := .processing }
  match env.download with
  | .error e => failJob st1 e
  | .ok _ =>
    let st2 : JobState := { st1 with fileHash := some env.fileHash }
    match env.classifier with
    | .error e => failJob st2 e
    | .ok _ =>
      let result := extractFieldsFromText env.geminiParsed env.ocrConfidence
      if result.success = false then
        failJob st2 ("Document processing failed: " ++ (result.error.getD "Unknown error"))
      else
        let fields := savedFields result
        match performFullAnalysis
          ⟨env.jobs, env.fileHash, userId, env.fileMeta, fields, env.parseDate, env.now⟩ with
        | .error e => failJob st2 e
        | .ok fraud =>
          { st2 with status := .completed, fraudAnalysis := some fraud, completedAt := true }

/-! ## Concrete inputs used by individual theorems -/

/-- A duplicated, photoshopped image invoice with a total mismatch and
uniformly low numeric field confidences: every sub-analysis at its
maximum. -/
def analysisInputOverMax : AnalysisInput :=
  { jobs := [⟨1, 7, some "aa", "completed"⟩]
    fileHash := "aa"
    userId := 7
    fileMeta := ⟨false, false, [("Software", "Adobe Photoshop")], []⟩
    fields := [⟨"invoice_subtotal", "1000", some (.num (3 / 10)), none⟩,
               ⟨"invoice_tax", "180", some (.num (3 / 10)), none⟩,
               ⟨"invoice_total", "1300", some (.num (3 / 10)), none⟩]
    parseDate := fun _ => none
    now := 0 }

/-- An owner re-uploading content whose hash already belongs to one of
their completed jobs. -/
def dupInputSameOwner : AnalysisInput :=
  { jobs := [⟨1, 7, some "deadbeef", "completed"⟩]
    fileHash := "deadbeef"
    userId := 7
    fileMeta := ⟨true, false, [], []⟩
    fields := []
    parseDate := fun _ => none
    now := 0 }

/-- A different owner uploading byte-identical content (same hash). -/
def dupInputOtherOwner : AnalysisInput :=
  { dupInputSameOwner with userId := 8 }

/-- Fields whose subtotal extracts to the float 0: falsy in Python. -/
def zeroAmountFields : List Field :=
  [⟨"invoice_subtotal", "0", none, none⟩,
   ⟨"invoice_tax", "180", none, none⟩,
   ⟨"invoice_total", "1300", none, none⟩]

/-- Fields with a genuine (nonzero) total mismatch. -/
def mismatchFields : List Field :=
  [⟨"invoice_subtotal", "1000", none, none⟩,
   ⟨"invoice_tax", "180", none, none⟩,
   ⟨"invoice_total", "1300", none, none⟩]

/-- A worker run whose external steps all succeed except that the
extraction-service response fails to parse. -/
def malformedResponseEnv : TaskEnv :=
  { download := .ok ()
    fileHash := "aa"
    classifier := .ok ()
    geminiParsed := none
    ocrConfidence := none
    jobs := []
    fileMeta := ⟨true, false, [], []⟩
    parseDate := fun _ => none
    now := 0 }

/-- A one-page text-free document with one large image. -/
def shortImageDoc : PdfDoc := ⟨[⟨"", [some (300, 300)]⟩]⟩

/-- A six-page text-free document with one large image. -/
def longImageDoc : PdfDoc :=
  ⟨⟨"", [some (300, 300)]⟩ :: List.replicate 5 ⟨"", []⟩⟩

/-! ## Theorems -/

/-- Claim C1: the full analysis always satisfies `risk_score = sum of the
four sub-scores`, `0 ≤ risk_score ≤ 9`, and the threshold table.  Refuted
as stated: the sub-score maxima are 3 + 2 + 3 + 2 = 10, and at a
duplicated, editor-stamped, mismatched, low-confidence input the code
returns `risk_score = 10` while its own report carries
`max_risk_score = 9`. -/
theorem risk_score_exceeds_documented_max :
    (performFullAnalysis analysisInputOverMax).map
      (fun r => (r.sub_scores.duplicate, r.sub_scores.metadata,
                 r.sub_scores.consistency, r.sub_scores.confidence,
                 r.risk_score, r.max_risk_score, r.overall_risk_level)) =
      Except.ok (3, 2, 3, 2, 10, 9, "high") := by
  with_unfolding_all rfl

/-- Claim C2: with an OCR confidence the combined confidence is the average
of OCR and API confidence, without one it is the API confidence (0.9 when
the service omits it), and `ocr = 0.8`, `ext = 0.9999999999999999` lands
within `1e-6` of `0.9`. -/
theorem combined_confidence_formula :
    (∀ (p : GeminiParsed) (o : ℚ),
        (extractFieldsFromText (some p) (some o)).confidence =
          (o + p.confidence.getD (9 / 10)) / 2 ∧
        (extractFieldsFromText (some p) (some o)).api_confidence =
          p.confidence.getD (9 / 10)) ∧
    (∀ p : GeminiParsed,
        (extractFieldsFromText (some p) none).confidence = p.confidence.getD (9 / 10)) ∧
    |(extractFieldsFromText (some { confidence := some 0.9999999999999999 })
        (some (8 / 10))).confidence - 9 / 10| ≤ 1 / 1000000 := by
  refine ⟨fun p o => ⟨rfl, rfl⟩, fun p => rfl, ?_⟩
  with_unfolding_all decide

/-- Claim C4 counterexample: an image of 160 by 250 pixels has area exactly
40000 but is rejected by the filter under the default thresholds (its
width is below the 200 minimum), contradicting the claim that it passes. -/
theorem image_filter_160x250_rejected :
    isContentImage 160 250 200 200 40000 = false ∧ 160 * 250 = 40000 := by
  decide

/-- Claim C4 (amended): the filter is the pure predicate
`width ≥ min_w ∧ height ≥ min_h ∧ width*height ≥ min_area`; under the
defaults 200/200/40000, a 200 by 200 image passes, 199 by 200 and
200 by 199 fail, and the non-square area-40000 image 160 by 250 also
fails because of the width minimum. -/
theorem image_filter_predicate_boundaries :
    (∀ width height minW minH minArea : ℕ,
        isContentImage width height minW minH minArea = true ↔
          (minW ≤ width ∧ minH ≤ height ∧ minArea ≤ width * height)) ∧
    isContentImage 200 200 200 200 40000 = true ∧
    isContentImage 199 200 200 200 40000 = false ∧
    isContentImage 200 199 200 200 40000 = false ∧
    isContentImage 160 250 200 200 40000 = false := by
  refine ⟨fun w h a b c => ?_, by decide, by decide, by decide, by decide⟩
  simp [isContentImage, ge_iff_le, and_assoc]

/-- Claim C7: the confidence sub-analysis is claimed to complete without
error on textual labels.  Refuted: the average-confidence loop applies
`float` to the raw string, so a field whose confidence is the label
`high` raises `ValueError` even though the label map (first conjunct of
the flagging loop) knows it. -/
theorem confidence_analysis_raises_on_label :
    analyzeConfidenceScores [⟨"vendor_name", "ACME Corp", some (.str "high"), none⟩] =
      Except.error "could not convert string to float: high" ∧
    confLabelMap "high" = some (9 / 10) := by
  exact ⟨by with_unfolding_all rfl, rfl⟩

/-- The decision tree on a text-free document with at most
`threshold` content images: page count decides light versus heavy. -/
lemma classifyType_no_text_few_images (threshold count textLength pageCount : ℕ)
    (h : count ≤ threshold) :
    (pageCount ≤ 5 →
      classifyType threshold count false textLength pageCount = .IMAGE_LIGHT) ∧
    (5 < pageCount →
      classifyType threshold count false textLength pageCount = .IMAGE_HEAVY) := by
  unfold classifyType
  constructor <;> intro hpc <;>
    simp only [Bool.false_eq_true, and_false, false_and, if_false, if_neg] <;>
    split_ifs <;> first | rfl | omega

/-- Claim C3: any document with at most `image_threshold` content images
and no extractable text is classified `IMAGE_LIGHT` when it has at most
five pages and `IMAGE_HEAVY` when it has more (long image-only documents
go to OCR, not to the vision path). -/
theorem image_only_routing_by_page_count (cfg : ClassifierCfg) (doc : PdfDoc)
    (himg : (classifyPdf cfg doc).image_count ≤ cfg.imageThreshold)
    (htext : (classifyPdf cfg doc).has_text = false) :
    ((classifyPdf cfg doc).page_count ≤ 5 →
      (classifyPdf cfg doc).pdf_type = .IMAGE_LIGHT) ∧
    (5 < (classifyPdf cfg doc).page_count →
      (classifyPdf cfg doc).pdf_type = .IMAGE_HEAVY) := by
  simp only [classifyPdf] at himg htext ⊢
  rw [htext]
  exact classifyType_no_text_few_images _ _ _ _ himg

/-- Claim C3 witness: a one-page text-free document with one content image
is `IMAGE_LIGHT`; the same with six pages is `IMAGE_HEAVY`. -/
theorem image_only_routing_by_page_count_witness :
    (classifyPdf {} shortImageDoc).pdf_type = .IMAGE_LIGHT ∧
    (classifyPdf {} longImageDoc).pdf_type = .IMAGE_HEAVY := by
  constructor
  · exact (image_only_routing_by_page_count {} shortImageDoc
      (by with_unfolding_all decide) (by with_unfolding_all decide)).1
      (by with_unfolding_all decide)
  · exact (image_only_routing_by_page_count {} longImageDoc
      (by with_unfolding_all decide) (by with_unfolding_all decide)).2
      (by with_unfolding_all decide)

/-- Claim C5: the duplicate sub-score is 3 exactly when some prior
completed job of the same owner carries the same file hash, and 0
otherwise; concretely, a re-upload by the same owner over a completed job
yields sub-score 3 with the duplicate flag, while the same hash uploaded
by a different owner yields sub-score 0 and no flag. -/
theorem duplicate_detection_characterization :
    (∀ (jobs : List JobRow) (h : String) (u : ℕ),
        duplicateScore jobs h u =
          if ∃ j ∈ jobs, j.userId = u ∧ j.fileHash = some h ∧ j.status = "completed"
          then 3 else 0) ∧
    (performFullAnalysis dupInputSameOwner).map
      (fun r => (r.sub_scores.duplicate,
                 r.flags.contains "Duplicate document detected")) =
      Except.ok (3, true) ∧
    (performFullAnalysis dupInputOtherOwner).map
      (fun r => (r.sub_scores.duplicate,
                 r.flags.contains "Duplicate document detected")) =
      Except.ok (0, false) := by
  refine ⟨fun jobs h u => ?_, by with_unfolding_all rfl, by with_unfolding_all rfl⟩
  have hiff : (checkDuplicate jobs h u).isSome = true ↔
      ∃ j ∈ jobs, j.userId = u ∧ j.fileHash = some h ∧ j.status = "completed" := by
    unfold checkDuplicate
    rw [List.find?_isSome]
    simp only [decide_eq_true_eq]
  by_cases hx : ∃ j ∈ jobs, j.userId = u ∧ j.fileHash = some h ∧ j.status = "completed"
  · rw [if_pos hx]
    unfold duplicateScore
    rw [if_pos (hiff.mpr hx)]
  · rw [if_neg hx]
    unfold duplicateScore
    rw [if_neg (fun hs => hx (hiff.mp hs))]

set_option maxRecDepth 8000 in
/-- Claim C6 counterexample: with subtotal `0`, tax `180` and total `1300`
the extracted subtotal plus tax differs from the total by 1120, far beyond
the 0.01 tolerance, yet the consistency check reports no issue at all
(sub-score 0): the float 0.0 is falsy in Python, so the
`if total_amount and subtotal and tax` guard skips the comparison. -/
theorem consistency_zero_amount_not_flagged :
    extractAmount (fieldValue zeroAmountFields "invoice_subtotal") = some 0 ∧
    extractAmount (fieldValue zeroAmountFields "invoice_tax") = some 180 ∧
    extractAmount (fieldValue zeroAmountFields "invoice_total") = some 1300 ∧
    |(0 : ℚ) + 180 - 1300| > 1 / 100 ∧
    (checkTextConsistency (fun _ => none) 0 zeroAmountFields).consistency_issues = [] ∧
    (checkTextConsistency (fun _ => none) 0 zeroAmountFields).risk_level = "low" ∧
    consistencyScore (checkTextConsistency (fun _ => none) 0 zeroAmountFields) = 0 := by
  with_unfolding_all decide

/-- Claim C6 (amended): whenever subtotal, tax and total all extract to
nonzero amounts and subtotal plus tax differs from the total by more than
0.01, the consistency check reports the high-severity total-mismatch
issue, its risk level is high, and the consistency sub-score is 3. -/
theorem consistency_mismatch_high_severity
    (parseDate : String → Option ℤ) (now : ℤ) (fields : List Field) (s x t : ℚ)
    (hs : extractAmount (fieldValue fields "invoice_subtotal") = some s)
    (hx : extractAmount (fieldValue fields "invoice_tax") = some x)
    (ht : extractAmount (fieldValue fields "invoice_total") = some t)
    (hs0 : s ≠ 0) (hx0 : x ≠ 0) (ht0 : t ≠ 0)
    (hgap : |s + x - t| > 1 / 100) :
    Issue.mk "Total amount mismatch" "high" ∈
      (checkTextConsistency parseDate now fields).consistency_issues ∧
    (checkTextConsistency parseDate now fields).risk_level = "high" ∧
    consistencyScore (checkTextConsistency parseDate now fields) = 3 := by
  simp only [checkTextConsistency, hs, hx, ht, truthyAmount, Option.getD_some,
    decide_eq_true_eq]
  rw [if_pos ⟨ht0, hs0, hx0⟩, if_pos hgap]
  refine ⟨by simp, by simp, ?_⟩
  simp [consistencyScore]

/-- Claim C6 witness: subtotal 1000, tax 180, total 1300 yields the
high-severity total-mismatch issue and consistency sub-score 3. -/
theorem consistency_mismatch_high_severity_witness :
    Issue.mk "Total amount mismatch" "high" ∈
      (checkTextConsistency (fun _ => none) 0 mismatchFields).consistency_issues ∧
    (checkTextConsistency (fun _ => none) 0 mismatchFields).risk_level = "high" ∧
    consistencyScore (checkTextConsistency (fun _ => none) 0 mismatchFields) = 3 := by
  exact consistency_mismatch_high_severity (fun _ => none) 0 mismatchFields 1000 180 1300
    (by with_unfolding_all rfl) (by with_unfolding_all rfl) (by with_unfolding_all rfl)
    (by norm_num) (by norm_num) (by norm_num) (by with_unfolding_all decide)

/-- Claim C8: per image, the OCR confidence is the mean of the
non-sentinel token confidences scaled from 0-100 to 0-1 (0.0 with no
tokens); over a list, the text is the per-image blocks with page
separators in input order and the confidence is the mean of the per-image
confidences. -/
theorem ocr_confidence_aggregation :
    (∀ (img : OcrImage) (qs : List ℚ),
        (img.conf.filter (fun c => c ≠ "-1")).mapM tokenFloat = Except.ok qs →
        extractTextFromImage img =
          Except.ok (img.text.trim,
            (if qs = [] then 0 else qs.sum / qs.length) / 100)) ∧
    (∀ (imgs : List OcrImage) (rs : List (String × ℚ)),
        imgs.mapM extractTextFromImage = Except.ok rs →
        extractTextFromImages imgs =
          Except.ok
            (String.intercalate "\n\n"
              (rs.enum.map
                (fun p => "--- Page/Image " ++ toString (p.1 + 1) ++ " ---\n" ++ p.2.1)),
             if rs = [] then 0
             else (rs.map (fun r => r.2)).sum / rs.length)) := by
  constructor
  · intro img qs h
    unfold extractTextFromImage
    simp only [h]
    rfl
  · intro imgs rs h
    unfold extractTextFromImages
    simp only [h]
    simp [List.map_eq_nil_iff]

/-- Claim C8 witness: tokens 95, -1, 85 average to 0.9 (sentinel
excluded), and two images combine in order with the mean confidence. -/
theorem ocr_confidence_aggregation_witness :
    extractTextFromImage ⟨" hi ", ["95", "-1", "85"]⟩ = Except.ok ("hi", 9 / 10) ∧
    extractTextFromImages [⟨" hi ", ["95", "-1", "85"]⟩, ⟨"yo", ["70"]⟩] =
      Except.ok ("--- Page/Image 1 ---\nhi\n\n--- Page/Image 2 ---\nyo", 4 / 5) := by
  constructor
  · have h := ocr_confidence_aggregation.1 ⟨" hi ", ["95", "-1", "85"]⟩ [95, 85]
      (by with_unfolding_all rfl)
    rw [h]
    with_unfolding_all rfl
  · have h := ocr_confidence_aggregation.2 [⟨" hi ", ["95", "-1", "85"]⟩, ⟨"yo", ["70"]⟩]
      [("hi", 9 / 10), ("yo", 7 / 10)] (by with_unfolding_all rfl)
    rw [h]
    with_unfolding_all rfl

/-- Claim C9: when the extraction-service response is non-parseable, the
job ends FAILED with an error message recorded and is never marked
COMPLETED. -/
theorem malformed_response_fails_job (userId : ℕ) (env : TaskEnv) (st0 : JobState)
    (h1 : env.download = .ok ()) (h2 : env.classifier = .ok ())
    (h3 : env.geminiParsed = none) :
    (runProcessDocument userId env st0).status = .failed ∧
    ((runProcessDocument userId env st0).errorMessage).isSome = true ∧
    (runProcessDocument userId env st0).status ≠ .completed := by
  unfold runProcessDocument
  rw [h1, h2, h3]
  simp [extractFieldsFromText, failJob]

/-- Claim C9 witness: a run whose only failure is a non-parseable service
response ends FAILED with an error message. -/
theorem malformed_response_fails_job_witness :
    (runProcessDocument 7 malformedResponseEnv { status := .queued }).status = .failed ∧
    ((runProcessDocument 7 malformedResponseEnv { status := .queued }).errorMessage).isSome
      = true ∧
    (runProcessDocument 7 malformedResponseEnv { status := .queued }).status ≠ .completed :=
  malformed_response_fails_job 7 malformedResponseEnv { status := .queued } rfl rfl rfl

/-- A skipped (failed-decode) image is invisible to the content-image
collection. -/
lemma filterMap_keepImage_filter (cfg : ClassifierCfg) (l : List (Option (ℕ × ℕ))) :
    (l.filter Option.isSome).filterMap (keepImage cfg) = l.filterMap (keepImage cfg) := by
  induction l with
  | nil => rfl
  | cons a tl ih =>
    cases a with
    | none => simpa [keepImage] using ih
    | some v =>
      cases hk : keepImage cfg (some v) <;>
        simp [List.filter_cons, List.filterMap_cons, hk, ih]

/-- Dropping failed images leaves the page texts unchanged. -/
lemma dropFailedImages_text (doc : PdfDoc) :
    (dropFailedImages doc).pages.map (fun p => p.text) = doc.pages.map (fun p => p.text) := by
  simp [dropFailedImages, List.map_map, Function.comp]

/-- Dropping failed images leaves the page count unchanged. -/
lemma dropFailedImages_length (doc : PdfDoc) :
    (dropFailedImages doc).pages.length = doc.pages.length := by
  simp [dropFailedImages]

/-- Dropping failed images leaves the content images unchanged. -/
lemma contentImages_dropFailedImages (cfg : ClassifierCfg) (doc : PdfDoc) :
    contentImages cfg (dropFailedImages doc) = contentImages cfg doc := by
  simp only [contentImages, dropFailedImages, List.map_map, Function.comp_def,
    filterMap_keepImage_filter]

/-- Claim C10: an image whose decode raises is skipped — classification of
the document equals classification of the document with the failing
images removed, so the error never propagates and the remaining images
and text are used normally. -/
theorem classifier_skips_failing_images (cfg : ClassifierCfg) (doc : PdfDoc) :
    classifyPdf cfg doc = classifyPdf cfg (dropFailedImages doc) := by
  unfold classifyPdf
  rw [contentImages_dropFailedImages, dropFailedImages_text, dropFailedImages_length]

end Rappa
